import Mathlib

/-!
Verification of the inbound event classification and normalization engine of
the slack bridge (`src/SlackEventHandler.ts`).

The TypeScript code is shallowly embedded as pure Lean functions.  Side
effects (the ack callback, logging, metric counters/timers, and every call to
an external collaborator) are recorded as an ordered `Trace` of `Action`s.
Each asynchronous collaborator is an oracle in `Env` that may either return a
value or throw a JavaScript value (`Except JsVal`); `throw new Error(s)` is
embedded as `JsVal.errObj s`, a plain thrown string as `JsVal.str s`, so that
the strict-equality comparisons `err === "unknown_channel"` of the source are
mirrored exactly (an `Error` object is never strictly equal to a string).

`Object.assign(\x7b\x7d, event, ...)` is a shallow copy: `msg.previous_message`
aliases `event.previous_message`, so the write `msg.previous_message.text = ...`
at line 196 of the source mutates the nested snapshot of the ORIGINAL event.
The shared snapshot cell is threaded explicitly: every handler result carries
the final value of the event's `previous_message` field (`pm`).
-/

namespace SlackBridge

/-- A JavaScript value as it appears in a thrown exception / the `err`
sentinel variable of `handle`: either a plain string (as assigned by
`err = "unknown_event"`) or an `Error` object built by `new Error(msg)`. -/
inductive JsVal where
  | str (s : String)
  | errObj (msg : String)
  deriving DecidableEq, Repr

/-- JS truthiness of a possibly-undefined string (`undefined` and `""` are
falsy). -/
def truthyS : Option String → Bool
  | none => false
  | some s => !(s = "")

/-- JS `a || b` on possibly-undefined strings. -/
def jsOr (a b : Option String) : Option String :=
  if truthyS a then a else b

/-- JS string coercion inside a template literal (`undefined` prints as the
string "undefined"). -/
def jsShow : Option String → String
  | none => "undefined"
  | some s => s

/-- Strict equality `v === "s"` between a JS value and a string literal:
true only when `v` is that very string primitive, never for an `Error`. -/
def jsEqStr (v : JsVal) (s : String) : Bool :=
  match v with
  | .str t => t = s
  | .errObj _ => false

/-- One entry of a Slack message `attachments` array (only the `fallback`
field is read by the handler). -/
structure Attachment where
  fallback : Option String
  deriving DecidableEq, Repr

/-- The nested `message` / `previous_message` payload of a `message_changed`
event. -/
structure MsgBody where
  user : Option String
  text : Option String
  bot_id : Option String
  deriving DecidableEq, Repr

/-- The nested `comment` payload of a `file_comment` event. -/
structure Comment where
  user : Option String
  deriving DecidableEq, Repr

/-- Slack file metadata; the handler treats it opaquely (it is only passed to
the file-access collaborators), so a single identifying field suffices. -/
structure FileMeta where
  id : String
  deriving DecidableEq, Repr

/-- The `item` payload of a reaction event (reactions nest their target
channel here). -/
structure SlackItem where
  channel : Option String
  deriving DecidableEq, Repr

/-- A raw inbound Slack event (`SlackEventTypes` of the source, flattened:
fields absent for a given kind are `none`, matching `undefined`). -/
structure SlackEvent where
  type : String
  channel : Option String
  user : Option String
  bot_id : Option String
  subtype : Option String
  text : Option String
  attachments : Option (List Attachment)
  comment : Option Comment
  message : Option MsgBody
  previous_message : Option MsgBody
  deleted_ts : Option String
  file : Option FileMeta
  item : Option SlackItem
  id : Option String
  name : Option String
  domain : Option String
  deriving DecidableEq, Repr

/-- The record returned by `datastore.getEventBySlackId`. -/
structure StoredEvent where
  roomId : String
  eventId : String
  deriving DecidableEq, Repr

/-- The observable state of a `BridgedRoom` collaborator (the Conversation
Unit).  `slackClient` models the truthiness of `room.SlackClient`; `isDirty`
models the `isDirty` getter, whose tracking lives outside the verified slice,
as an observable flag (assignments in this slice do not recompute it). -/
structure BridgedRoom where
  slackBotId : Option String
  accessToken : Option String
  slackTeamDomain : Option String
  slackTeamId : Option String
  slackChannelId : Option String
  slackChannelName : Option String
  slackClient : Bool
  isDirty : Bool
  deriving DecidableEq, Repr

/-- Every externally observable step of the handler, in program order. -/
inductive Action where
  | logDebug
  | logWarnNoHandle
  | logWarnUnknownChannel (chanIdMix : String)
  | logWarnNoToken (s : String)
  | logErrorFailed
  | logErrorHandleFailed
  | respond (status : Nat) (body : String)
  | startTimer (name : String)
  | endTimer (outcome : String)
  | incCounter (name : String) (side : String)
  | getRoomByChannel (ch : Option String)
  | getRoomsByTeam (teamId : String)
  | replCall (text : Option String)
  | onSlackMessage (userId : Option String) (text : Option String) (hasContent : Bool)
  | onSlackTopic
  | onSlackReactionAdded
  | onSlackTyping
  | getEventBySlackId (ch ts : Option String)
  | redactEvent (roomId eventId : String)
  | upsertRoom (room : BridgedRoom)
  | enablePublicSharing
  | fetchFileContent
  deriving DecidableEq, Repr

/-- The environment of collaborators: the registry (`Main`), the datastore,
the mention resolver (`doChannelUserReplacements`), the file gateway and the
Conversation Unit forwarding calls.  Every asynchronous collaborator may
throw an arbitrary JS value. -/
structure Env where
  getRoomBySlackChannelId : Option String → Option BridgedRoom
  getRoomsBySlackTeamId : String → List BridgedRoom
  repl : Option String → Except JsVal (Option String)
  onSlackMessage : Option String → Option String → Bool → Except JsVal Unit
  onSlackTopic : Except JsVal Unit
  onSlackReactionAdded : Except JsVal Unit
  onSlackTyping : Except JsVal Unit
  getEventBySlackId : Option String → Option String → Except JsVal (Option StoredEvent)
  redactEvent : String → String → Except JsVal Unit
  upsertRoom : BridgedRoom → Except JsVal Unit
  enablePublicSharing : FileMeta → Except JsVal FileMeta
  fetchFileContent : FileMeta → Except JsVal String

/-- The derived `msg` record built by `Object.assign(\x7b\x7d, event, \x7b...\x7d)`:
a shallow copy of the event (`base`) plus the four added fields.  Writes to
`msg.text`, `msg.user_id`, `msg.file` only touch this copy; writes through
`msg.previous_message` reach the shared snapshot (threaded separately). -/
structure Msg where
  base : SlackEvent
  channel_id : Option String
  team_domain : Option String
  team_id : String
  user_id : Option String
  deriving DecidableEq, Repr

instance {α : Type} [DecidableEq α] : DecidableEq (Except JsVal α) := fun a b =>
  match a, b with
  | .ok x, .ok y => decidable_of_iff (x = y) (by simp)
  | .error e, .error f => decidable_of_iff (e = f) (by simp)
  | .ok _, .error _ => isFalse (by simp)
  | .error _, .ok _ => isFalse (by simp)

/-- Result of a sub-handler that cannot touch the shared snapshot. -/
structure PRes where
  trace : List Action
  res : Except JsVal Unit
  deriving DecidableEq, Repr

/-- Result of `handleMessageEvent`: trace, final value of the event's
`previous_message` cell, and normal return or thrown JS value. -/
structure HRes where
  trace : List Action
  pm : Option MsgBody
  res : Except JsVal Unit
  deriving DecidableEq, Repr

/-- Result of the `file_share` block (lines 231-243): trace, the possibly
updated `msg` (its `file` field may be replaced), and the downloaded bytes if
both gateway calls succeeded.  Both failures are swallowed by the `catch`. -/
structure FRes where
  trace : List Action
  msg : Msg
  content : Option String
  deriving DecidableEq, Repr

/-- Lines 231-243: `file_share` handling.  `msg.file = await
enablePublicSharing(...)` then `content = await fetchFileContent(msg.file)`,
with any failure swallowed (`catch \x7b\x7d`). -/
def fileStage (env : Env) (room : BridgedRoom) (msg : Msg) : FRes :=
  if msg.base.subtype = some "file_share" ∧ msg.base.file.isSome then
    match msg.base.file with
    | some f =>
      if room.slackClient then
        match env.enablePublicSharing f with
        | .error _ => ⟨[.enablePublicSharing], msg, none⟩
        | .ok f2 =>
          match env.fetchFileContent f2 with
          | .error _ =>
            ⟨[.enablePublicSharing, .fetchFileContent], { msg with base.file := some f2 }, none⟩
          | .ok bytes =>
            ⟨[.enablePublicSharing, .fetchFileContent], { msg with base.file := some f2 }, some bytes⟩
      else ⟨[], msg, none⟩
    | none => ⟨[], msg, none⟩
  else ⟨[], msg, none⟩

/-- Lines 221-246: the common tail of `handleMessageEvent` after the subtype
cascade — the degenerate re-check of `room.SlackClient` (which forwards the
raw `event`), the `file_share` block, the final mention-resolution of
`msg.text` and the generic forward call.  `pm` is the current value of the
shared `previous_message` cell, returned unchanged. -/
def msgTail (env : Env) (room : BridgedRoom) (ev : SlackEvent) (msg : Msg)
    (pm : Option MsgBody) : HRes :=
  if room.slackClient = false then
    ⟨[.logWarnNoToken ("no slack token for " ++ jsShow room.slackTeamDomain),
      .onSlackMessage none ev.text false],
     pm, env.onSlackMessage none ev.text false⟩
  else
    let fr := fileStage env room msg
    match env.repl fr.msg.base.text with
    | .error e => ⟨fr.trace ++ [.replCall fr.msg.base.text], pm, .error e⟩
    | .ok newText =>
      ⟨fr.trace ++ [.replCall fr.msg.base.text,
        .onSlackMessage fr.msg.user_id newText fr.content.isSome],
       pm, env.onSlackMessage fr.msg.user_id newText fr.content.isSome⟩

/-- Lines 191-219: the subtype-specific field repair cascade
(`file_comment` / `message_changed` / `message_deleted` / `message_replied`),
falling through to `msgTail`.  Only the `message_changed` branch writes the
shared `previous_message` cell. -/
def msgCascade (env : Env) (room : BridgedRoom) (ev : SlackEvent) (msg : Msg) : HRes :=
  if msg.base.subtype = some "file_comment" ∧ msg.base.comment.isSome then
    match msg.base.comment with
    | some c => msgTail env room ev { msg with user_id := c.user } ev.previous_message
    | none => msgTail env room ev msg ev.previous_message
  else if msg.base.subtype = some "message_changed" ∧
      msg.base.message.isSome ∧ msg.base.previous_message.isSome then
    match msg.base.message, msg.base.previous_message with
    | some m, some pm0 =>
      let msg1 := { msg with user_id := m.user, base.text := m.text }
      match env.repl pm0.text with
      | .error e => ⟨[.replCall pm0.text], ev.previous_message, .error e⟩
      | .ok newPmText =>
        let pm1 : MsgBody := { pm0 with text := newPmText }
        let msg2 := { msg1 with base.previous_message := some pm1 }
        if m.bot_id.isSome then
          if m.bot_id = room.slackBotId then
            ⟨[.replCall pm0.text], some pm1, .ok ()⟩
          else
            let r := msgTail env room ev { msg2 with user_id := msg2.base.bot_id } (some pm1)
            ⟨.replCall pm0.text :: r.trace, r.pm, r.res⟩
        else
          let r := msgTail env room ev msg2 (some pm1)
          ⟨.replCall pm0.text :: r.trace, r.pm, r.res⟩
    | _, _ => msgTail env room ev msg ev.previous_message
  else if msg.base.subtype = some "message_deleted" then
    match env.getEventBySlackId msg.base.channel msg.base.deleted_ts with
    | .error e =>
      ⟨[.getEventBySlackId msg.base.channel msg.base.deleted_ts], ev.previous_message, .error e⟩
    | .ok (some orig) =>
      ⟨[.getEventBySlackId msg.base.channel msg.base.deleted_ts,
        .redactEvent orig.roomId orig.eventId],
       ev.previous_message, env.redactEvent orig.roomId orig.eventId⟩
    | .ok none =>
      let r := msgTail env room ev msg ev.previous_message
      ⟨.getEventBySlackId msg.base.channel msg.base.deleted_ts :: r.trace, r.pm, r.res⟩
  else if msg.base.subtype = some "message_replied" then
    ⟨[], ev.previous_message, .ok ()⟩
  else
    msgTail env room ev msg ev.previous_message

/-- Lines 137-247: `handleMessageEvent`.  Resolve the room (throwing
`new Error("unknown_channel")` if absent), suppress the bridge's own
`bot_message` echo, count the inbound message, build the shallow-copied
`msg`, then walk the degraded-capability / topic / attachment branches and
the subtype cascade. -/
def handleMessageEvent (env : Env) (ev : SlackEvent) (teamId : String) : HRes :=
  match env.getRoomBySlackChannelId ev.channel with
  | none => ⟨[.getRoomByChannel ev.channel], ev.previous_message, .error (.errObj "unknown_channel")⟩
  | some room =>
    if ev.subtype = some "bot_message" ∧
        (truthyS room.slackBotId = false ∨ ev.bot_id = room.slackBotId) then
      ⟨[.getRoomByChannel ev.channel], ev.previous_message, .ok ()⟩
    else
      let msg : Msg :=
        { base := ev
          channel_id := ev.channel
          team_domain := jsOr room.slackTeamDomain room.slackTeamId
          team_id := teamId
          user_id := jsOr ev.user ev.bot_id }
      let t0 : List Action := [.getRoomByChannel ev.channel, .incCounter "received_messages" "remote"]
      if room.slackClient = false then
        ⟨t0 ++ [.logWarnNoToken ("no slack token for " ++ jsShow room.slackTeamDomain),
          .onSlackMessage msg.user_id msg.base.text false],
         ev.previous_message, env.onSlackMessage msg.user_id msg.base.text false⟩
      else if msg.base.subtype = some "channel_topic" ∨ msg.base.subtype = some "group_topic" then
        ⟨t0 ++ [.onSlackTopic], ev.previous_message, env.onSlackTopic⟩
      else
        match msg.base.attachments with
        | some (att :: _) =>
          match env.repl att.fallback with
          | .error e => ⟨t0 ++ [.replCall att.fallback], ev.previous_message, .error e⟩
          | .ok newText =>
            ⟨t0 ++ [.replCall att.fallback, .onSlackMessage msg.user_id newText false],
             ev.previous_message, env.onSlackMessage msg.user_id newText false⟩
        | some [] =>
          if msg.base.text = some "" then ⟨t0, ev.previous_message, .ok ()⟩
          else
            let r := msgCascade env room ev msg
            ⟨t0 ++ r.trace, r.pm, r.res⟩
        | none =>
          let r := msgCascade env room ev msg
          ⟨t0 ++ r.trace, r.pm, r.res⟩

/-- Lines 249-270: `handleReaction`.  The target channel is read from
`event.item.channel`; reading `.channel` of an undefined `item` is a JS
`TypeError`.  Only `reaction_added` is forwarded. -/
def handleReaction (env : Env) (ev : SlackEvent) : PRes :=
  match ev.item with
  | none => ⟨[], .error (.errObj "TypeError")⟩
  | some it =>
    match env.getRoomBySlackChannelId it.channel with
    | none => ⟨[.getRoomByChannel it.channel], .error (.errObj "unknown_channel")⟩
    | some _ =>
      if ev.type = "reaction_added" then
        ⟨[.getRoomByChannel it.channel, .onSlackReactionAdded], env.onSlackReactionAdded⟩
      else
        ⟨[.getRoomByChannel it.channel], .ok ()⟩

/-- Lines 272-279: `handleDomainChangeEvent`.  Every room of the team gets
the new domain assigned; each room reporting dirty is upserted.  The
`Promise.all` fan-out is embedded sequentially: all assignments and all
upsert calls occur, and the first rejection (in list order) becomes the
result. -/
def handleDomainChangeEvent (env : Env) (ev : SlackEvent) (teamId : String) :
    List Action × List BridgedRoom × Except JsVal Unit :=
  let rooms := env.getRoomsBySlackTeamId teamId
  let updated := rooms.map (fun r => { r with slackTeamDomain := ev.domain })
  let dirty := updated.filter (fun r => r.isDirty)
  let trace := Action.getRoomsByTeam teamId :: dirty.map Action.upsertRoom
  let res := dirty.foldr
    (fun r acc => match env.upsertRoom r with | .error e => .error e | .ok _ => acc)
    (Except.ok ())
  (trace, updated, res)

/-- Lines 281-291: `handleChannelRenameEvent`.  Lookup is by `event.id`; the
room's display name becomes `teamDomain.#newName`; upsert if dirty. -/
def handleChannelRenameEvent (env : Env) (ev : SlackEvent) : PRes :=
  match env.getRoomBySlackChannelId ev.id with
  | none => ⟨[.getRoomByChannel ev.id], .error (.errObj "unknown_channel")⟩
  | some room =>
    let channelName := jsShow room.slackTeamDomain ++ ".#" ++ jsShow ev.name
    let room1 := { room with slackChannelName := some channelName }
    if room1.isDirty then
      ⟨[.getRoomByChannel ev.id, .upsertRoom room1], env.upsertRoom room1⟩
    else
      ⟨[.getRoomByChannel ev.id], .ok ()⟩

/-- Lines 293-303: `handleTyping`. -/
def handleTyping (env : Env) (ev : SlackEvent) : PRes :=
  match env.getRoomBySlackChannelId ev.channel with
  | none => ⟨[.getRoomByChannel ev.channel], .error (.errObj "unknown_channel")⟩
  | some _ => ⟨[.getRoomByChannel ev.channel, .onSlackTyping], env.onSlackTyping⟩

/-- The result of the inner `try \x7b switch ... \x7d catch (ex) \x7b warn; err = ex \x7d`
block of `handle`: trace so far, final snapshot cell, and the value of the
`err` variable (`none` = null). -/
structure DRes where
  trace : List Action
  pm : Option MsgBody
  err : Option JsVal
  deriving DecidableEq, Repr

/-- The inner catch of `handle` (lines 103-106): a thrown value is logged
with `log.warn("Didn't handle event:", ex)` and stored in `err`. -/
def caught (r : HRes) : DRes :=
  match r.res with
  | .ok _ => ⟨r.trace, r.pm, none⟩
  | .error e => ⟨r.trace ++ [.logWarnNoHandle], r.pm, some e⟩

/-- Lift a sub-handler that cannot touch the snapshot cell. -/
def liftH (ev : SlackEvent) (r : PRes) : HRes :=
  ⟨r.trace, ev.previous_message, r.res⟩

/-- Lines 81-106: the `switch (event.type)` dispatch wrapped in the inner
try/catch.  The default case (including the unused `file_comment_added`
label) assigns the plain string `"unknown_event"` without throwing. -/
def dispatch (env : Env) (ev : SlackEvent) (teamId : String) : DRes :=
  if ev.type = "message" then
    caught (handleMessageEvent env ev teamId)
  else if ev.type = "reaction_added" ∨ ev.type = "reaction_removed" then
    caught (liftH ev (handleReaction env ev))
  else if ev.type = "channel_rename" then
    caught (liftH ev (handleChannelRenameEvent env ev))
  else if ev.type = "team_domain_change" then
    caught (liftH ev ⟨(handleDomainChangeEvent env ev teamId).1,
      (handleDomainChangeEvent env ev teamId).2.2⟩)
  else if ev.type = "user_typing" then
    caught (liftH ev (handleTyping env ev))
  else
    ⟨[], ev.previous_message, some (.str "unknown_event")⟩

/-- Lines 108-124: outcome recording from the `err` sentinel.  Note the
strict string comparisons: a thrown `Error` object never equals the string
`"unknown_channel"`, so only a thrown string primitive could take the first
branch. -/
def recordOutcome (ev : SlackEvent) (teamId : String) (err : Option JsVal) : List Action :=
  match err with
  | some v =>
    if jsEqStr v "unknown_channel" then
      [.logWarnUnknownChannel (jsShow ev.channel ++ " (" ++ teamId ++ ")"),
       .incCounter "received_messages" "remote", .endTimer "dropped"]
    else if jsEqStr v "unknown_event" then
      [.endTimer "dropped", .logErrorFailed]
    else
      [.endTimer "fail", .logErrorFailed]
  | none => [.endTimer "success"]

/-- The final result of `handle`: the trace, the final snapshot cell of the
event, and what (if anything) propagates to the caller. -/
structure HandleRes where
  trace : List Action
  pm : Option MsgBody
  res : Except JsVal Unit
  deriving DecidableEq, Repr

/-- The body of the outer `try` of `handle` (lines 72-124): debug log, timer
start, immediate ack, dispatch, outcome recording. -/
def handleInner (env : Env) (ev : SlackEvent) (teamId : String) : HandleRes :=
  let d := dispatch env ev teamId
  ⟨Action.logDebug :: Action.startTimer "remote_request_seconds" ::
     Action.respond 200 "OK" :: (d.trace ++ recordOutcome ev teamId d.err),
   d.pm, .ok ()⟩

/-- Lines 70-128: `handle`, with the outer catch-all that logs and swallows
anything the inner body might throw. -/
def handle (env : Env) (ev : SlackEvent) (teamId : String) : HandleRes :=
  let inner := handleInner env ev teamId
  match inner.res with
  | .ok _ => inner
  | .error _ => ⟨inner.trace ++ [.logErrorHandleFailed], inner.pm, .ok ()⟩

/-- The received event as it stands after `handle` returns: every field is
the original one except the nested `previous_message`, which is the shared
cell (aliased by the shallow copy) in its final state. -/
def eventAfter (env : Env) (ev : SlackEvent) (teamId : String) : SlackEvent :=
  { ev with previous_message := (handle env ev teamId).pm }

/-! ## Observable classification of actions -/

/-- The ack callback invocation. -/
def isRespondA : Action → Bool
  | .respond _ _ => true
  | _ => false

/-- Calls on downstream collaborators: registry lookup, mention resolution,
file access, datastore access, and every forwarding / redaction / upsert
call on the destination side. -/
def isDownstreamA : Action → Bool
  | .getRoomByChannel _ => true
  | .getRoomsByTeam _ => true
  | .replCall _ => true
  | .onSlackMessage _ _ _ => true
  | .onSlackTopic => true
  | .onSlackReactionAdded => true
  | .onSlackTyping => true
  | .getEventBySlackId _ _ => true
  | .redactEvent _ _ => true
  | .upsertRoom _ => true
  | .enablePublicSharing => true
  | .fetchFileContent => true
  | _ => false

/-- A forwarding call on the Conversation Unit (generic message forward). -/
def isForwardA : Action → Bool
  | .onSlackMessage _ _ _ => true
  | _ => false

/-- An upsert call on the datastore. -/
def isUpsertA : Action → Bool
  | .upsertRoom _ => true
  | _ => false

/-- A `MsgBody` with its `text` forgotten, to state that an update touched
nothing but the text. -/
def stripText : Option MsgBody → Option MsgBody :=
  Option.map (fun b => { b with text := none })

/-! ## Concrete fixtures for witnesses and counterexamples -/

/-- A privileged conversation for channel C1 with bridge bot B1. -/
def roomA : BridgedRoom :=
  { slackBotId := some "B1", accessToken := some "tok", slackTeamDomain := some "dom",
    slackTeamId := some "T1", slackChannelId := some "C1", slackChannelName := none,
    slackClient := true, isDirty := false }

/-- A benign environment: channel C1 resolves to `roomA`, the mention
resolver is a pass-through, the datastore has no bridged messages, and every
collaborator succeeds. -/
def envBase : Env :=
  { getRoomBySlackChannelId := fun ch => if ch = some "C1" then some roomA else none
    getRoomsBySlackTeamId := fun _ => []
    repl := fun t => .ok t
    onSlackMessage := fun _ _ _ => .ok ()
    onSlackTopic := .ok ()
    onSlackReactionAdded := .ok ()
    onSlackTyping := .ok ()
    getEventBySlackId := fun _ _ => .ok none
    redactEvent := fun _ _ => .ok ()
    upsertRoom := fun _ => .ok ()
    enablePublicSharing := fun f => .ok f
    fetchFileContent := fun _ => .ok "bytes" }

/-- A plain inbound message event on channel C1. -/
def ev0 : SlackEvent :=
  { type := "message", channel := some "C1", user := some "U1", bot_id := none,
    subtype := none, text := some "hello", attachments := none, comment := none,
    message := none, previous_message := none, deleted_ts := none, file := none,
    item := none, id := none, name := none, domain := none }

/-- The edited-message payload of a `message_changed` fixture: the edit was
produced by bot B2 (not the bridge bot B1). -/
def mBody : MsgBody := { user := some "U2", text := some "hi", bot_id := some "B2" }

/-- The previous-message snapshot of the `message_changed` fixture. -/
def pmBody : MsgBody := { user := some "U1", text := some "old", bot_id := none }

/-- A `message_changed` event carrying both the edited body and the
previous-message snapshot; the outer event has no `bot_id`. -/
def evChanged : SlackEvent :=
  { ev0 with
    subtype := some "message_changed", message := some mBody,
    previous_message := some pmBody }

/-- A `message_deleted` event for a timestamp the datastore does not know. -/
def evDeleted : SlackEvent :=
  { ev0 with subtype := some "message_deleted", deleted_ts := some "111.222" }

/-- An attachment whose fallback text is empty. -/
def attEmpty : Attachment := { fallback := some "" }

/-- A message whose attachments array is nonempty but whose first
attachment's fallback text is empty. -/
def evAttEmpty : SlackEvent :=
  { ev0 with attachments := some [attEmpty] }

/-- An environment whose mention resolver appends a bang, so enrichment
visibly changes text. -/
def envBang : Env :=
  { envBase with repl := fun t => .ok (t.map (fun s => s ++ "!")) }

/-- The edited-message payload with no bot identifier. -/
def mBodyNoBot : MsgBody := { user := some "U2", text := some "hi", bot_id := none }

/-- A `message_changed` event whose edit carries no bot identifier. -/
def evChanged2 : SlackEvent :=
  { evChanged with message := some mBodyNoBot }

/-- The previous-message snapshot after pass-through-with-bang enrichment. -/
def pmBodyBang : MsgBody := { user := some "U1", text := some "old!", bot_id := none }

/-! ## Helper lemmas: no branch of the dispatch ever invokes the ack
callback again -/

theorem fileStage_respondFree (env : Env) (room : BridgedRoom) (msg : Msg) :
    ((fileStage env room msg).trace).countP isRespondA = 0 := by
  unfold fileStage
  repeat' split
  all_goals simp [isRespondA, List.countP_cons, List.countP_nil]

theorem msgTail_respondFree (env : Env) (room : BridgedRoom) (ev : SlackEvent)
    (msg : Msg) (pm : Option MsgBody) :
    ((msgTail env room ev msg pm).trace).countP isRespondA = 0 := by
  unfold msgTail
  split
  · simp [isRespondA, List.countP_cons, List.countP_nil]
  · dsimp only
    split <;>
      simp [isRespondA, List.countP_cons, List.countP_nil, List.countP_append,
        fileStage_respondFree]

theorem msgCascade_respondFree (env : Env) (room : BridgedRoom) (ev : SlackEvent)
    (msg : Msg) :
    ((msgCascade env room ev msg).trace).countP isRespondA = 0 := by
  unfold msgCascade
  repeat' split
  all_goals
    simp [isRespondA, List.countP_cons, List.countP_nil, List.countP_append,
      msgTail_respondFree]

theorem handleMessageEvent_respondFree (env : Env) (ev : SlackEvent) (teamId : String) :
    ((handleMessageEvent env ev teamId).trace).countP isRespondA = 0 := by
  unfold handleMessageEvent
  split
  · simp [isRespondA, List.countP_cons, List.countP_nil]
  · split
    · simp [isRespondA, List.countP_cons, List.countP_nil]
    · dsimp only
      repeat' split
      all_goals
        simp [isRespondA, List.countP_cons, List.countP_nil, List.countP_append,
          msgCascade_respondFree]

theorem handleReaction_respondFree (env : Env) (ev : SlackEvent) :
    ((handleReaction env ev).trace).countP isRespondA = 0 := by
  unfold handleReaction
  repeat' split
  all_goals simp [isRespondA, List.countP_cons, List.countP_nil]

theorem handleChannelRenameEvent_respondFree (env : Env) (ev : SlackEvent) :
    ((handleChannelRenameEvent env ev).trace).countP isRespondA = 0 := by
  unfold handleChannelRenameEvent
  dsimp only
  repeat' split
  all_goals simp [isRespondA, List.countP_cons, List.countP_nil]

theorem handleTyping_respondFree (env : Env) (ev : SlackEvent) :
    ((handleTyping env ev).trace).countP isRespondA = 0 := by
  unfold handleTyping
  repeat' split
  all_goals simp [isRespondA, List.countP_cons, List.countP_nil]

theorem handleDomainChangeEvent_respondFree (env : Env) (ev : SlackEvent) (teamId : String) :
    ((handleDomainChangeEvent env ev teamId).1).countP isRespondA = 0 := by
  unfold handleDomainChangeEvent
  simp [isRespondA, List.countP_cons, List.countP_map, Function.comp]

theorem recordOutcome_respondFree (ev : SlackEvent) (teamId : String) (err : Option JsVal) :
    (recordOutcome ev teamId err).countP isRespondA = 0 := by
  unfold recordOutcome
  repeat' split
  all_goals simp [isRespondA, List.countP_cons, List.countP_nil]

theorem caught_respondFree (r : HRes) (h : (r.trace).countP isRespondA = 0) :
    ((caught r).trace).countP isRespondA = 0 := by
  unfold caught
  split <;> simp [isRespondA, List.countP_cons, List.countP_nil, List.countP_append, h]

theorem dispatch_respondFree (env : Env) (ev : SlackEvent) (teamId : String) :
    ((dispatch env ev teamId).trace).countP isRespondA = 0 := by
  unfold dispatch
  repeat' split
  · exact caught_respondFree _ (handleMessageEvent_respondFree env ev teamId)
  · exact caught_respondFree _ (handleReaction_respondFree env ev)
  · exact caught_respondFree _ (handleChannelRenameEvent_respondFree env ev)
  · exact caught_respondFree _ (handleDomainChangeEvent_respondFree env ev teamId)
  · exact caught_respondFree _ (handleTyping_respondFree env ev)
  · simp

/-! ## Claim theorems -/

/-- Claim C2: for every inbound event, the ack callback is invoked with
status 200 immediately after the debug log and timer start — before any
registry lookup, handler dispatch, mention resolution, file access or
forwarding call — and it is invoked exactly once over the whole processing,
so nothing after it can alter the already-sent response. -/
theorem ack_before_downstream (env : Env) (ev : SlackEvent) (teamId : String) :
    (∃ rest, (handle env ev teamId).trace =
      Action.logDebug :: Action.startTimer "remote_request_seconds" ::
        Action.respond 200 "OK" :: rest) ∧
    ((handle env ev teamId).trace).countP isRespondA = 1 ∧
    isDownstreamA Action.logDebug = false ∧
    isDownstreamA (Action.startTimer "remote_request_seconds") = false := by
  refine ⟨⟨_, rfl⟩, ?_, rfl, rfl⟩
  show ((handle env ev teamId).trace).countP isRespondA = 1
  unfold handle handleInner
  simp [isRespondA, List.countP_cons, List.countP_append,
    dispatch_respondFree, recordOutcome_respondFree]

/-- Claim C1 (code bug, evaluation at the failing input): a message event on
an unrecognised channel makes `handleMessageEvent` throw
`new Error("unknown_channel")`, but the classifier compares the caught value
to the string `"unknown_channel"` with strict equality, which is false for an
`Error` object; so the event records Outcome = fail with an error log, and
the warning / inbound-counter / dropped branch of lines 108-113 is never
taken — contradicting the claim. -/
theorem unknownChannel_records_fail_not_dropped :
    (handle envBase { ev0 with channel := some "CX" } "T1").trace =
      [Action.logDebug, Action.startTimer "remote_request_seconds",
       Action.respond 200 "OK", Action.getRoomByChannel (some "CX"),
       Action.logWarnNoHandle, Action.endTimer "fail", Action.logErrorFailed] ∧
    Action.incCounter "received_messages" "remote" ∉
      (handle envBase { ev0 with channel := some "CX" } "T1").trace ∧
    Action.endTimer "dropped" ∉
      (handle envBase { ev0 with channel := some "CX" } "T1").trace ∧
    Action.logWarnUnknownChannel "CX (T1)" ∉
      (handle envBase { ev0 with channel := some "CX" } "T1").trace := by
  decide

/-- Claim C5 (counterexample): a `message_deleted` event whose timestamp has
no persisted record falls through to the generic forward call on the
Conversation Unit — the claim's "this path never reaches the generic forward
call" is false. -/
theorem messageDeleted_reaches_generic_forward :
    (handle envBase evDeleted "T1").trace =
      [Action.logDebug, Action.startTimer "remote_request_seconds",
       Action.respond 200 "OK", Action.getRoomByChannel (some "C1"),
       Action.incCounter "received_messages" "remote",
       Action.getEventBySlackId (some "C1") (some "111.222"),
       Action.replCall (some "hello"),
       Action.onSlackMessage (some "U1") (some "hello") false,
       Action.endTimer "success"] ∧
    Action.onSlackMessage (some "U1") (some "hello") false ∈
      (handle envBase evDeleted "T1").trace := by
  decide

/-- Claim C6 (counterexample): a `message_changed` edit sent by bot B2 (not
the bridge bot B1) is forwarded with acting user identifier equal to the
OUTER event's `bot_id` (here absent), not the edited message's bot identifier
B2 as the claim states. -/
theorem editedBot_attribution_uses_outer_bot_id :
    (handle envBase evChanged "T1").trace =
      [Action.logDebug, Action.startTimer "remote_request_seconds",
       Action.respond 200 "OK", Action.getRoomByChannel (some "C1"),
       Action.incCounter "received_messages" "remote",
       Action.replCall (some "old"), Action.replCall (some "hi"),
       Action.onSlackMessage none (some "hi") false,
       Action.endTimer "success"] ∧
    Action.onSlackMessage (some "B2") (some "hi") false ∉
      (handle envBase evChanged "T1").trace ∧
    Action.onSlackMessage none (some "hi") false ∈
      (handle envBase evChanged "T1").trace := by
  decide

/-- Claim C7 (counterexample): a message whose attachments array is nonempty
but whose first attachment's fallback text is empty is NOT dropped — the
forward call is made with the (empty) resolved text, contradicting the
claim's "if attachments exist but resolve to empty text, drop silently". -/
theorem emptyFallback_attachment_still_forwards :
    (handle envBase evAttEmpty "T1").trace =
      [Action.logDebug, Action.startTimer "remote_request_seconds",
       Action.respond 200 "OK", Action.getRoomByChannel (some "C1"),
       Action.incCounter "received_messages" "remote",
       Action.replCall (some ""),
       Action.onSlackMessage (some "U1") (some "") false,
       Action.endTimer "success"] ∧
    Action.onSlackMessage (some "U1") (some "") false ∈
      (handle envBase evAttEmpty "T1").trace := by
  decide

/-- Claim C3: for every inbound event and every behavior of the downstream
collaborators — including any of them throwing — `handle` returns normally:
the inner catch converts handler throws into the `err` sentinel and the outer
catch-all swallows anything else, so nothing propagates to the webhook
endpoint after the ack. -/
theorem handle_never_propagates (env : Env) (ev : SlackEvent) (teamId : String) :
    (handle env ev teamId).res = Except.ok () := rfl

/-- Claim C4: a `bot_message` whose conversation has no known bridge bot
identifier, or whose bot identifier equals the conversation's bridge bot
identifier, is silently suppressed: no forward call, no inbound-counter
increment, Outcome = success — for any conversation state (privileged or
not). -/
theorem botMessage_echo_suppressed (env : Env) (ev : SlackEvent) (teamId : String)
    (room : BridgedRoom)
    (htype : ev.type = "message")
    (hlook : env.getRoomBySlackChannelId ev.channel = some room)
    (hsub : ev.subtype = some "bot_message")
    (hbot : truthyS room.slackBotId = false ∨ ev.bot_id = room.slackBotId) :
    (handle env ev teamId).trace =
      [Action.logDebug, Action.startTimer "remote_request_seconds",
       Action.respond 200 "OK", Action.getRoomByChannel ev.channel,
       Action.endTimer "success"] := by
  unfold handle handleInner dispatch caught recordOutcome handleMessageEvent
  rw [htype, hlook, hsub]
  simp [hbot]

/-- A `bot_message` event whose bot identifier is the bridge bot of C1. -/
def evBot : SlackEvent :=
  { ev0 with subtype := some "bot_message", bot_id := some "B1", user := none }

/-- Claim C4 witness: the suppression theorem applied at the concrete echo
fixture. -/
theorem botMessage_echo_suppressed_witness :
    envBase.getRoomBySlackChannelId evBot.channel = some roomA ∧
    (handle envBase evBot "T1").trace =
      [Action.logDebug, Action.startTimer "remote_request_seconds",
       Action.respond 200 "OK", Action.getRoomByChannel (some "C1"),
       Action.endTimer "success"] :=
  ⟨by decide,
   botMessage_echo_suppressed envBase evBot "T1" roomA (by decide) (by decide)
     (by decide) (by decide)⟩

/-- Claim C5 (amended): for a `message_deleted` event in a privileged
conversation, when the datastore finds the bridged message a redaction is
issued via the bridge's administrative identity and processing stops (no
generic forward); when no record is found, no redaction is made and the
event FALLS THROUGH TO THE GENERIC FORWARD CALL, with Outcome = success. -/
theorem messageDeleted_redacts_or_falls_through (env : Env) (ev : SlackEvent)
    (teamId : String) (room : BridgedRoom)
    (htype : ev.type = "message")
    (hlook : env.getRoomBySlackChannelId ev.channel = some room)
    (hsub : ev.subtype = some "message_deleted")
    (hclient : room.slackClient = true)
    (hatt : ev.attachments = none) :
    (∀ orig : StoredEvent,
      env.getEventBySlackId ev.channel ev.deleted_ts = Except.ok (some orig) →
      env.redactEvent orig.roomId orig.eventId = Except.ok () →
      (handle env ev teamId).trace =
        [Action.logDebug, Action.startTimer "remote_request_seconds",
         Action.respond 200 "OK", Action.getRoomByChannel ev.channel,
         Action.incCounter "received_messages" "remote",
         Action.getEventBySlackId ev.channel ev.deleted_ts,
         Action.redactEvent orig.roomId orig.eventId,
         Action.endTimer "success"]) ∧
    (∀ t2 : Option String,
      env.getEventBySlackId ev.channel ev.deleted_ts = Except.ok none →
      env.repl ev.text = Except.ok t2 →
      env.onSlackMessage (jsOr ev.user ev.bot_id) t2 false = Except.ok () →
      (handle env ev teamId).trace =
        [Action.logDebug, Action.startTimer "remote_request_seconds",
         Action.respond 200 "OK", Action.getRoomByChannel ev.channel,
         Action.incCounter "received_messages" "remote",
         Action.getEventBySlackId ev.channel ev.deleted_ts,
         Action.replCall ev.text,
         Action.onSlackMessage (jsOr ev.user ev.bot_id) t2 false,
         Action.endTimer "success"]) := by
  constructor
  · intro orig hfound hred
    unfold handle handleInner dispatch caught recordOutcome handleMessageEvent msgCascade
    rw [htype, hlook]
    simp [hsub, hclient, hatt, hfound, hred]
  · intro t2 hnone hrepl hfwd
    unfold handle handleInner dispatch caught recordOutcome handleMessageEvent msgCascade msgTail fileStage
    rw [htype, hlook]
    simp [hsub, hclient, hatt, hnone, hrepl, hfwd]

/-- The record the datastore returns in the found case of the C5 witness. -/
def storedRE : StoredEvent := { roomId := "RM", eventId := "EV" }

/-- An environment whose datastore knows a bridged message for every
lookup. -/
def envFound : Env :=
  { envBase with getEventBySlackId := fun _ _ => .ok (some storedRE) }

/-- Claim C5 witness: both branches of the amended theorem at concrete
inputs — a found record redacts and stops, a missing record falls through to
the generic forward. -/
theorem messageDeleted_redacts_or_falls_through_witness :
    (handle envFound evDeleted "T1").trace =
      [Action.logDebug, Action.startTimer "remote_request_seconds",
       Action.respond 200 "OK", Action.getRoomByChannel (some "C1"),
       Action.incCounter "received_messages" "remote",
       Action.getEventBySlackId (some "C1") (some "111.222"),
       Action.redactEvent "RM" "EV",
       Action.endTimer "success"] ∧
    (handle envBase evDeleted "T1").trace =
      [Action.logDebug, Action.startTimer "remote_request_seconds",
       Action.respond 200 "OK", Action.getRoomByChannel (some "C1"),
       Action.incCounter "received_messages" "remote",
       Action.getEventBySlackId (some "C1") (some "111.222"),
       Action.replCall (some "hello"),
       Action.onSlackMessage (some "U1") (some "hello") false,
       Action.endTimer "success"] :=
  ⟨(messageDeleted_redacts_or_falls_through envFound evDeleted "T1" roomA
      (by decide) (by decide) (by decide) (by decide) (by decide)).1
      storedRE (by decide) (by decide),
   (messageDeleted_redacts_or_falls_through envBase evDeleted "T1" roomA
      (by decide) (by decide) (by decide) (by decide) (by decide)).2
      (some "hello") (by decide) (by decide) (by decide)⟩

/-- Claim C6 (amended): for a `message_changed` event carrying both bodies,
an edit whose bot identifier equals the conversation's bridge bot identifier
is dropped with no forward call; an edit whose bot identifier differs is
forwarded with the acting user identifier set to the OUTER event's `bot_id`
(which may be absent), not the edited message's bot identifier. -/
theorem messageChanged_bot_attribution (env : Env) (ev : SlackEvent)
    (teamId : String) (room : BridgedRoom) (m pm0 : MsgBody) (b : String)
    (w : Option String)
    (htype : ev.type = "message")
    (hlook : env.getRoomBySlackChannelId ev.channel = some room)
    (hsub : ev.subtype = some "message_changed")
    (hm : ev.message = some m)
    (hpm : ev.previous_message = some pm0)
    (hclient : room.slackClient = true)
    (hatt : ev.attachments = none)
    (hbot : m.bot_id = some b)
    (hrepl0 : env.repl pm0.text = Except.ok w) :
    (some b = room.slackBotId →
      (handle env ev teamId).trace =
        [Action.logDebug, Action.startTimer "remote_request_seconds",
         Action.respond 200 "OK", Action.getRoomByChannel ev.channel,
         Action.incCounter "received_messages" "remote",
         Action.replCall pm0.text,
         Action.endTimer "success"]) ∧
    (∀ t2 : Option String,
      some b ≠ room.slackBotId →
      env.repl m.text = Except.ok t2 →
      env.onSlackMessage ev.bot_id t2 false = Except.ok () →
      (handle env ev teamId).trace =
        [Action.logDebug, Action.startTimer "remote_request_seconds",
         Action.respond 200 "OK", Action.getRoomByChannel ev.channel,
         Action.incCounter "received_messages" "remote",
         Action.replCall pm0.text, Action.replCall m.text,
         Action.onSlackMessage ev.bot_id t2 false,
         Action.endTimer "success"]) := by
  constructor
  · intro heq
    unfold handle handleInner dispatch caught recordOutcome handleMessageEvent msgCascade
    rw [htype, hlook]
    simp [hsub, hclient, hatt, hm, hpm, hbot, hrepl0, heq.symm]
  · intro t2 hne hrepl hfwd
    unfold handle handleInner dispatch caught recordOutcome handleMessageEvent msgCascade msgTail fileStage
    rw [htype, hlook]
    simp [hsub, hclient, hatt, hm, hpm, hbot, hrepl0, hne, hrepl, hfwd]

/-- The edited-message payload sent by the bridge bot itself. -/
def mBodySelf : MsgBody := { user := some "U2", text := some "hi", bot_id := some "B1" }

/-- A `message_changed` event whose edit was made by the bridge bot. -/
def evChangedSelf : SlackEvent := { evChanged with message := some mBodySelf }

/-- Claim C6 witness: the attribution theorem at concrete inputs — a
bridge-bot edit is dropped; a foreign-bot edit forwards with the outer
(absent) bot identifier. -/
theorem messageChanged_bot_attribution_witness :
    (handle envBase evChangedSelf "T1").trace =
      [Action.logDebug, Action.startTimer "remote_request_seconds",
       Action.respond 200 "OK", Action.getRoomByChannel (some "C1"),
       Action.incCounter "received_messages" "remote",
       Action.replCall (some "old"),
       Action.endTimer "success"] ∧
    (handle envBase evChanged "T1").trace =
      [Action.logDebug, Action.startTimer "remote_request_seconds",
       Action.respond 200 "OK", Action.getRoomByChannel (some "C1"),
       Action.incCounter "received_messages" "remote",
       Action.replCall (some "old"), Action.replCall (some "hi"),
       Action.onSlackMessage none (some "hi") false,
       Action.endTimer "success"] :=
  ⟨(messageChanged_bot_attribution envBase evChangedSelf "T1" roomA mBodySelf
      pmBody "B1" (some "old") (by decide) (by decide) (by decide) (by decide)
      (by decide) (by decide) (by decide) (by decide) (by decide)).1 (by decide),
   (messageChanged_bot_attribution envBase evChanged "T1" roomA mBody
      pmBody "B2" (some "old") (by decide) (by decide) (by decide) (by decide)
      (by decide) (by decide) (by decide) (by decide) (by decide)).2
      (some "hi") (by decide) (by decide) (by decide)⟩

/-- Claim C7 (amended): when the attachments array is nonempty, the message
text becomes the first attachment's fallback, is mention-resolved, and
exactly one forward call is made — attachments beyond the first are never
used, and this happens EVEN when the resolved text is empty; the silent drop
occurs only when the attachments array is present but empty and the message
text is the empty string. -/
theorem attachment_walk (env : Env) (ev : SlackEvent) (teamId : String)
    (room : BridgedRoom)
    (htype : ev.type = "message")
    (hlook : env.getRoomBySlackChannelId ev.channel = some room)
    (hnecho : ¬ (ev.subtype = some "bot_message" ∧
      (truthyS room.slackBotId = false ∨ ev.bot_id = room.slackBotId)))
    (hclient : room.slackClient = true)
    (ht1 : ev.subtype ≠ some "channel_topic")
    (ht2 : ev.subtype ≠ some "group_topic") :
    (∀ (att : Attachment) (rest : List Attachment) (t2 : Option String),
      ev.attachments = some (att :: rest) →
      env.repl att.fallback = Except.ok t2 →
      env.onSlackMessage (jsOr ev.user ev.bot_id) t2 false = Except.ok () →
      (handle env ev teamId).trace =
        [Action.logDebug, Action.startTimer "remote_request_seconds",
         Action.respond 200 "OK", Action.getRoomByChannel ev.channel,
         Action.incCounter "received_messages" "remote",
         Action.replCall att.fallback,
         Action.onSlackMessage (jsOr ev.user ev.bot_id) t2 false,
         Action.endTimer "success"]) ∧
    (ev.attachments = some [] → ev.text = some "" →
      (handle env ev teamId).trace =
        [Action.logDebug, Action.startTimer "remote_request_seconds",
         Action.respond 200 "OK", Action.getRoomByChannel ev.channel,
         Action.incCounter "received_messages" "remote",
         Action.endTimer "success"]) := by
  constructor
  · intro att rest t2 hatt hrepl hfwd
    unfold handle handleInner dispatch caught recordOutcome handleMessageEvent
    rw [htype, hlook]
    simp [hnecho, hclient, ht1, ht2, hatt, hrepl, hfwd]
  · intro hatt htext
    unfold handle handleInner dispatch caught recordOutcome handleMessageEvent
    rw [htype, hlook]
    simp [hnecho, hclient, ht1, ht2, hatt, htext]

/-- An attachment with a nonempty fallback. -/
def attOne : Attachment := { fallback := some "one" }

/-- A message carrying one attachment. -/
def evAttOne : SlackEvent := { ev0 with attachments := some [attOne] }

/-- A message whose attachments array is present but empty and whose text is
empty. -/
def evAttNil : SlackEvent := { ev0 with attachments := some [], text := some "" }

/-- Claim C7 witness: the attachment-walk theorem at concrete inputs — a
nonempty array forwards the first fallback, an empty array with empty text
drops silently. -/
theorem attachment_walk_witness :
    (handle envBase evAttOne "T1").trace =
      [Action.logDebug, Action.startTimer "remote_request_seconds",
       Action.respond 200 "OK", Action.getRoomByChannel (some "C1"),
       Action.incCounter "received_messages" "remote",
       Action.replCall (some "one"),
       Action.onSlackMessage (some "U1") (some "one") false,
       Action.endTimer "success"] ∧
    (handle envBase evAttNil "T1").trace =
      [Action.logDebug, Action.startTimer "remote_request_seconds",
       Action.respond 200 "OK", Action.getRoomByChannel (some "C1"),
       Action.incCounter "received_messages" "remote",
       Action.endTimer "success"] :=
  ⟨(attachment_walk envBase evAttOne "T1" roomA (by decide) (by decide)
      (by decide) (by decide) (by decide) (by decide)).1
      attOne [] (some "one") (by decide) (by decide) (by decide),
   (attachment_walk envBase evAttNil "T1" roomA (by decide) (by decide)
      (by decide) (by decide) (by decide) (by decide)).2 (by decide) (by decide)⟩

/-- Claim C10: a `message_changed` event missing the edited body or the
previous-message snapshot undergoes no subtype-specific field repair and is
neither dropped nor an error: it falls through to the generic path, its
original text is mention-resolved, and exactly one forward call is made with
the original acting identifier. -/
theorem messageChanged_missing_bodies_generic (env : Env) (ev : SlackEvent)
    (teamId : String) (room : BridgedRoom) (t2 : Option String)
    (htype : ev.type = "message")
    (hlook : env.getRoomBySlackChannelId ev.channel = some room)
    (hsub : ev.subtype = some "message_changed")
    (hmiss : ev.message = none ∨ ev.previous_message = none)
    (hclient : room.slackClient = true)
    (hatt : ev.attachments = none)
    (hrepl : env.repl ev.text = Except.ok t2)
    (hfwd : env.onSlackMessage (jsOr ev.user ev.bot_id) t2 false = Except.ok ()) :
    (handle env ev teamId).trace =
      [Action.logDebug, Action.startTimer "remote_request_seconds",
       Action.respond 200 "OK", Action.getRoomByChannel ev.channel,
       Action.incCounter "received_messages" "remote",
       Action.replCall ev.text,
       Action.onSlackMessage (jsOr ev.user ev.bot_id) t2 false,
       Action.endTimer "success"] := by
  unfold handle handleInner dispatch caught recordOutcome handleMessageEvent msgCascade msgTail fileStage
  rw [htype, hlook]
  rcases hmiss with h | h <;>
    simp [hsub, h, hclient, hatt, hrepl, hfwd]

/-- A `message_changed` event with neither body present. -/
def evChangedMiss : SlackEvent := { ev0 with subtype := some "message_changed" }

/-- Claim C10 witness: the fall-through theorem at a concrete
`message_changed` event with both bodies absent. -/
theorem messageChanged_missing_bodies_generic_witness :
    (handle envBase evChangedMiss "T1").trace =
      [Action.logDebug, Action.startTimer "remote_request_seconds",
       Action.respond 200 "OK", Action.getRoomByChannel (some "C1"),
       Action.incCounter "received_messages" "remote",
       Action.replCall (some "hello"),
       Action.onSlackMessage (some "U1") (some "hello") false,
       Action.endTimer "success"] :=
  messageChanged_missing_bodies_generic envBase evChangedMiss "T1" roomA
    (some "hello") (by decide) (by decide) (by decide) (Or.inl (by decide))
    (by decide) (by decide) (by decide) (by decide)

/-- A dirty conversation of team T1. -/
def roomD1 : BridgedRoom := { roomA with slackChannelId := some "D1", isDirty := true }

/-- A clean conversation of team T1. -/
def roomD2 : BridgedRoom := { roomA with slackChannelId := some "D2" }

/-- Another dirty conversation of team T1. -/
def roomD3 : BridgedRoom := { roomA with slackChannelId := some "D3", isDirty := true }

/-- An environment in which team T1 owns three conversations, two dirty. -/
def env3 : Env :=
  { envBase with
    getRoomsBySlackTeamId := fun tid => if tid = "T1" then [roomD1, roomD2, roomD3] else [] }

/-- A `team_domain_change` event carrying the new domain. -/
def evDom : SlackEvent := { ev0 with type := "team_domain_change", domain := some "newdom" }

/-- Claim C8: the domain-change handler assigns the new team domain to every
conversation of the team and calls the datastore upsert exactly for the
conversations that report themselves dirty after the assignment; in the
concrete three-conversation scenario with two dirty rooms, exactly two
upsert calls occur and all three domain fields hold the new domain. -/
theorem domainChange_updates_all_upserts_dirty (env : Env) (ev : SlackEvent) (teamId : String) :
    ((handleDomainChangeEvent env ev teamId).2.1).length =
      (env.getRoomsBySlackTeamId teamId).length ∧
    (∀ r ∈ (handleDomainChangeEvent env ev teamId).2.1, r.slackTeamDomain = ev.domain) ∧
    (handleDomainChangeEvent env ev teamId).1 =
      Action.getRoomsByTeam teamId ::
        (((handleDomainChangeEvent env ev teamId).2.1).filter (fun r => r.isDirty)).map
          Action.upsertRoom ∧
    ((handleDomainChangeEvent env ev teamId).1).countP isUpsertA =
      (((handleDomainChangeEvent env ev teamId).2.1).filter (fun r => r.isDirty)).length ∧
    ((handleDomainChangeEvent env3 evDom "T1").1).countP isUpsertA = 2 ∧
    (∀ r ∈ (handleDomainChangeEvent env3 evDom "T1").2.1,
      r.slackTeamDomain = some "newdom") := by
  refine ⟨?_, ?_, rfl, ?_, by decide, by decide⟩
  · unfold handleDomainChangeEvent
    simp
  · intro r hr
    unfold handleDomainChangeEvent at hr
    simp at hr
    obtain ⟨a, ha, rfl⟩ := hr
    rfl
  · unfold handleDomainChangeEvent
    simp [List.countP_cons, isUpsertA, List.countP_map, Function.comp]

/-- Claim C9 (counterexample): because `Object.assign` makes a shallow copy,
the `message_changed` repair path writes the mention-resolved text through
the shared `previous_message` reference, mutating the original event: after
`handle` the event differs from the one received. -/
theorem receivedEvent_is_mutated_in_place :
    eventAfter envBang evChanged2 "T1" ≠ evChanged2 ∧
    (eventAfter envBang evChanged2 "T1").previous_message = some pmBodyBang := by
  decide

/-! ## Helper lemmas: which fields of the received event can change -/

theorem msgTail_pm (env : Env) (room : BridgedRoom) (ev : SlackEvent) (msg : Msg)
    (pm : Option MsgBody) : (msgTail env room ev msg pm).pm = pm := by
  unfold msgTail
  split
  · rfl
  · dsimp only
    split <;> rfl

theorem caught_pm (r : HRes) : (caught r).pm = r.pm := by
  unfold caught
  split <;> rfl

theorem msgCascade_pm (env : Env) (room : BridgedRoom) (ev : SlackEvent) (msg : Msg)
    (h : msg.base.previous_message = ev.previous_message) :
    stripText (msgCascade env room ev msg).pm = stripText ev.previous_message := by
  unfold msgCascade
  repeat' split
  all_goals try simp_all [stripText, msgTail_pm]
  all_goals rw [← h]
  all_goals rfl

theorem msgCascade_pm_same (env : Env) (room : BridgedRoom) (ev : SlackEvent) (msg : Msg)
    (hs : msg.base.subtype ≠ some "message_changed") :
    (msgCascade env room ev msg).pm = ev.previous_message := by
  unfold msgCascade
  repeat' split
  all_goals simp_all [msgTail_pm]

theorem handleMessageEvent_pm (env : Env) (ev : SlackEvent) (teamId : String) :
    stripText (handleMessageEvent env ev teamId).pm = stripText ev.previous_message := by
  unfold handleMessageEvent
  split
  · rfl
  · split
    · rfl
    · dsimp only
      repeat' split
      all_goals first
        | rfl
        | exact msgCascade_pm _ _ _ _ rfl

theorem handleMessageEvent_pm_same (env : Env) (ev : SlackEvent) (teamId : String)
    (hs : ev.subtype ≠ some "message_changed") :
    (handleMessageEvent env ev teamId).pm = ev.previous_message := by
  unfold handleMessageEvent
  split
  · rfl
  · split
    · rfl
    · dsimp only
      repeat' split
      all_goals first
        | rfl
        | exact msgCascade_pm_same _ _ _ _ hs

theorem handle_pm (env : Env) (ev : SlackEvent) (teamId : String) :
    stripText (handle env ev teamId).pm = stripText ev.previous_message := by
  show stripText (dispatch env ev teamId).pm = stripText ev.previous_message
  unfold dispatch
  repeat' split
  all_goals simp [caught_pm, liftH, handleMessageEvent_pm]

theorem handle_pm_same (env : Env) (ev : SlackEvent) (teamId : String)
    (hs : ev.subtype ≠ some "message_changed") :
    (handle env ev teamId).pm = ev.previous_message := by
  show (dispatch env ev teamId).pm = ev.previous_message
  unfold dispatch
  repeat' split
  all_goals simp [caught_pm, liftH, handleMessageEvent_pm_same env ev teamId hs]

/-- Claim C9 (amended): the shallow copy shares only the nested
`previous_message` snapshot with the received event, so after `handle` (i)
every field of the snapshot other than its text is unchanged — the snapshot
itself stays present or absent as received, (ii) every field of the event
outside `previous_message` is unchanged, and (iii) for any event that is not
a `message_changed`, the received event is entirely unchanged. -/
theorem event_mutation_localized (env : Env) (ev : SlackEvent) (teamId : String) :
    stripText (eventAfter env ev teamId).previous_message = stripText ev.previous_message ∧
    ({ eventAfter env ev teamId with previous_message := ev.previous_message } = ev) ∧
    (ev.subtype ≠ some "message_changed" → eventAfter env ev teamId = ev) := by
  refine ⟨handle_pm env ev teamId, rfl, ?_⟩
  intro hs
  unfold eventAfter
  rw [handle_pm_same env ev teamId hs]

/-- Claim C9 witness: the localization theorem applied at a concrete
non-edit event, whose received form is fully unchanged by processing. -/
theorem event_mutation_localized_witness :
    ev0.subtype ≠ some "message_changed" ∧ eventAfter envBase ev0 "T1" = ev0 :=
  ⟨by decide, (event_mutation_localized envBase ev0 "T1").2.2 (by decide)⟩

end SlackBridge
